import Mathlib

/-!
Shallow embedding of the Orbit agent-orchestration core: the data model
(`app/models`), the tool executor (`app/tools/executor.py`) and the
orchestrator dispatch loop (`app/orchestrator/service.py`).

Modelling conventions, uniform across the file:
* JSON-shaped mappings (payloads, shared context, agent memory) are
  association lists `JMap`; `dictUpdate` is Python's `dict.update`
  (key-wise overwrite, insertion order preserved, new keys appended).
* Generated UUIDs are a `Nat` counter threaded through the state;
  `created_at` timestamps are represented by the position in the
  append-only event list, so "order by created_at desc" is list reversal.
* Python exceptions are `Except String`; a caught exception keeps all
  session mutations made before the raise, exactly as an uncommitted
  SQLAlchemy session does (the orchestrator commits the whole batch later).
* The Redis cache is modelled as always missing: the code falls through to
  the store on a miss and the store is authoritative, so every read is a
  store read.
-/

namespace Orbit

/-- JSON-shaped scalar values appearing in payloads and contexts. -/
inductive JVal where
  | jnum : Int → JVal
  | jstr : String → JVal
  | jbool : Bool → JVal
deriving DecidableEq, Repr

/-- A JSON object: association list from string keys to values, in
insertion order, without duplicate keys in well-formed states. -/
abbrev JMap := List (String × JVal)

/-- Replace the value at key `k` if present (keeping its position),
otherwise append `(k, v)` — the effect of `d[k] = v` on a Python dict. -/
def setKey : JMap → String → JVal → JMap
  | [], k, v => [(k, v)]
  | (k', v') :: rest, k, v =>
      if k' = k then (k, v) :: rest else (k', v') :: setKey rest k v

/-- Lookup of a key in a `JMap` (Python `d.get(k)`). -/
def getKey : JMap → String → Option JVal
  | [], _ => none
  | (k', v') :: rest, k => if k' = k then some v' else getKey rest k

/-- Python `base.update(patch)`: every key of `patch` overwrites, keys
absent from `patch` are preserved. -/
def dictUpdate (base patch : JMap) : JMap :=
  patch.foldl (fun acc kv => setKey acc kv.1 kv.2) base

/-! ## Data model rows (app/models) -/

/-- Row of `users` joined with its optional `UserProfile.profile` and
`SharedContext.context` one-to-one rows (`user.profile`,
`user.shared_context` relationships; `none` means the row is absent). -/
structure UserRow where
  id : Nat
  profile : Option JMap
  shared_context : Option JMap
deriving DecidableEq, Repr

/-- Row of `agent_manifests`: the orchestrator reads
`manifest.get("subscribed_events", [])` and the manifest JSON also carries
a `permissions.write_shared_context` flag (never read by dispatch). -/
structure ManifestRow where
  agent_id : String
  version : String
  status : String
  subscribed_events : List String
  write_shared_context : Bool
deriving DecidableEq, Repr

/-- Row of `agent_installations`. -/
structure AgentInstallation where
  id : Nat
  user_id : Nat
  agent_id : String
  version : String
  status : String
deriving DecidableEq, Repr

/-- Row of `agent_context`: private memory of one installation. -/
structure AgentContextRow where
  installation_id : Nat
  agent_memory : JMap
deriving DecidableEq, Repr

/-- Row of `events` (immutable, append-only). -/
structure Event where
  id : Nat
  user_id : Nat
  event_type : String
  source_agent : Option String
  payload : JMap
deriving DecidableEq, Repr

/-- Status column of `execution_traces`. -/
inductive TraceStatus where
  | running
  | completed
  | failed
deriving DecidableEq, Repr

/-- Row of `execution_traces`. -/
structure ExecutionTrace where
  id : Nat
  event_id : Nat
  agent_id : String
  installation_id : Nat
  status : TraceStatus
  error : Option String
deriving DecidableEq, Repr

/-- Row of `tool_definitions`; `requires_human_approval` is a plain string
column (source comment: `true, false, optional`). -/
structure ToolDefinition where
  tool_id : String
  requires_human_approval : String
  risk_level : String
deriving DecidableEq, Repr

/-- Status column of `tool_executions`. Note the model has no error
column: a failed execution records only the status. -/
inductive ExecStatus where
  | pending
  | approved
  | rejected
  | executing
  | completed
  | failed
deriving DecidableEq, Repr

/-- Row of `tool_executions`. -/
structure ToolExecution where
  id : Nat
  user_id : Nat
  agent_id : String
  installation_id : Option Nat
  tool_id : String
  payload : JMap
  status : ExecStatus
deriving DecidableEq, Repr

/-- Row of `human_approvals`; `decision` is stored verbatim. -/
structure HumanApproval where
  tool_execution_id : Nat
  reviewer_id : Nat
  decision : String
  comment : Option String
deriving DecidableEq, Repr

/-- The database session state shared by the orchestrator and the tool
executor: all tables plus the id counter for generated primary keys. -/
structure DB where
  users : List UserRow
  manifests : List ManifestRow
  installations : List AgentInstallation
  agent_contexts : List AgentContextRow
  events : List Event
  traces : List ExecutionTrace
  tool_definitions : List ToolDefinition
  tool_executions : List ToolExecution
  human_approvals : List HumanApproval
  nextId : Nat
deriving DecidableEq, Repr

/-! ## SDK types (app/sdk/types.py) -/

/-- `app.sdk.types.Event`: the value handed to agents. -/
structure SDKEvent where
  event_type : String
  source_agent : Option String
  payload : JMap
deriving DecidableEq, Repr

/-- `app.sdk.types.AgentContext`: what an agent receives. -/
structure SDKAgentContext where
  user_profile : JMap
  shared_context : JMap
  agent_memory : JMap
  recent_events : List SDKEvent
deriving DecidableEq, Repr

/-- One entry of `AgentResult.tool_executions`: the orchestrator reads
`tool_exec["tool_id"]` and `tool_exec["payload"]`. -/
structure ToolRequest where
  tool_id : String
  payload : JMap
deriving DecidableEq, Repr

/-- `app.sdk.types.AgentResult`. `status` and `error` exist on the SDK
type but are never read by the dispatch loop. -/
structure AgentResult where
  shared_context_updates : JMap
  agent_memory_updates : JMap
  events : List SDKEvent
  tool_executions : List ToolRequest
  status : String
  error : Option String
deriving DecidableEq, Repr

/-- An agent implementation: `handle_event` may raise (`Except.error`).
Registry lookup is by the key `agent_id:version`. -/
structure AgentImpl where
  handle_event : SDKEvent → SDKAgentContext → Except String AgentResult

/-- The in-process agent registry keyed by `(agent_id, version)`. -/
abbrev AgentRegistry := String → String → Option AgentImpl

/-- A tool implementation: `execute(payload)` may raise. -/
abbrev ToolImpl := JMap → Except String JMap

/-- The tool registry (`ToolRegistry.get_tool`). -/
abbrev ToolRegistry := String → Option ToolImpl

/-! ## Row lookups (SQLAlchemy `query(...).filter_by(...).first()`) -/

/-- `db.query(User).filter_by(id=user_id).first()`. -/
def findUser (db : DB) (uid : Nat) : Option UserRow :=
  db.users.find? (fun u => u.id = uid)

/-- `db.query(AgentManifest).filter_by(agent_id=..., version=...).first()`
(no status filter in `_get_subscribed_installations`). -/
def findManifest (db : DB) (agent_id version : String) : Option ManifestRow :=
  db.manifests.find? (fun m => m.agent_id = agent_id ∧ m.version = version)

/-- `installation.context` relationship row. -/
def findAgentContext (db : DB) (installation_id : Nat) : Option AgentContextRow :=
  db.agent_contexts.find? (fun c => c.installation_id = installation_id)

/-- `db.query(ToolDefinition).filter_by(tool_id=tool_id).first()`. -/
def findToolDefinition (db : DB) (tool_id : String) : Option ToolDefinition :=
  db.tool_definitions.find? (fun t => t.tool_id = tool_id)

/-- `db.query(ToolExecution).filter_by(id=execution_id).first()`. -/
def findToolExecution (db : DB) (execution_id : Nat) : Option ToolExecution :=
  db.tool_executions.find? (fun e => e.id = execution_id)

/-- In-session mutation `execution.status = s` on the row with this id. -/
def setExecStatus (db : DB) (execution_id : Nat) (s : ExecStatus) : DB :=
  { db with tool_executions :=
      db.tool_executions.map (fun e =>
        if e.id = execution_id then { e with status := s } else e) }

/-- In-session mutation of a trace row's status and error. -/
def setTraceResult (db : DB) (trace_id : Nat) (s : TraceStatus)
    (err : Option String) : DB :=
  { db with traces :=
      db.traces.map (fun t =>
        if t.id = trace_id then { t with status := s, error := err } else t) }

/-! ## Tool executor (app/tools/executor.py) -/

/-- `ToolExecutor._execute_tool_internal`: set status `executing`, look up
the implementation, run it. Any exception sets status `failed` (no error
column exists to store the message) and is re-raised, returned here as
`some message`; the status mutations survive because the session is not
rolled back. On success the status becomes `completed` and the result
mapping is discarded. -/
def _execute_tool_internal (reg : ToolRegistry) (db : DB)
    (execution_id : Nat) (tool_id : String) (payload : JMap) :
    DB × Option String :=
  let db1 := setExecStatus db execution_id .executing
  match reg tool_id with
  | none =>
      (setExecStatus db1 execution_id .failed,
       some ("Tool implementation " ++ tool_id ++ " not found"))
  | some impl =>
      match impl payload with
      | .error e => (setExecStatus db1 execution_id .failed, some e)
      | .ok _ => (setExecStatus db1 execution_id .completed, none)

/-- `ToolExecutor.execute_tool`: resolve the definition (`ToolNotFound`
otherwise), create the execution in `pending`, and execute immediately
unless `requires_human_approval == "true"` — that string comparison is the
only gate in the source. An exception from the internal execution
propagates to the caller with the session mutations retained. -/
def execute_tool (reg : ToolRegistry) (db : DB) (user_id : Nat)
    (agent_id : String) (installation_id : Option Nat) (tool_id : String)
    (payload : JMap) : DB × Except String ToolExecution :=
  match findToolDefinition db tool_id with
  | none => (db, .error ("Tool " ++ tool_id ++ " not found"))
  | some tool_def =>
      let execution : ToolExecution :=
        { id := db.nextId, user_id := user_id, agent_id := agent_id,
          installation_id := installation_id, tool_id := tool_id,
          payload := payload, status := .pending }
      let db1 : DB :=
        { db with tool_executions := db.tool_executions ++ [execution],
                  nextId := db.nextId + 1 }
      if tool_def.requires_human_approval = "true" then
        (db1, .ok execution)
      else
        let res := _execute_tool_internal reg db1 execution.id tool_id payload
        (res.1,
         match res.2 with
         | some e => .error e
         | none => .ok ((findToolExecution res.1 execution.id).getD execution))

/-- `ToolExecutor.approve_tool_execution`: requires an existing execution
in `pending` (else the `InvalidState` error with nothing changed), records
the `HumanApproval` with the verbatim decision string, and only the exact
string `"approved"` triggers execution; every other decision sets status
`rejected`. -/
def approve_tool_execution (reg : ToolRegistry) (db : DB)
    (execution_id : Nat) (reviewer_id : Nat) (decision : String)
    (comment : Option String) : DB × Except String ToolExecution :=
  match findToolExecution db execution_id with
  | none => (db, .error ("Tool execution " ++ toString execution_id ++ " not found"))
  | some execution =>
      if execution.status ≠ .pending then
        (db, .error ("Tool execution " ++ toString execution_id ++ " is not pending approval"))
      else
        let approval : HumanApproval :=
          { tool_execution_id := execution_id, reviewer_id := reviewer_id,
            decision := decision, comment := comment }
        let db1 : DB :=
          { db with human_approvals := db.human_approvals ++ [approval] }
        if decision = "approved" then
          let db2 := setExecStatus db1 execution_id .approved
          match findToolDefinition db2 execution.tool_id with
          | none =>
              (db2, .ok ((findToolExecution db2 execution_id).getD execution))
          | some _ =>
              let res := _execute_tool_internal reg db2 execution_id
                execution.tool_id execution.payload
              (res.1,
               match res.2 with
               | some e => .error e
               | none => .ok ((findToolExecution res.1 execution_id).getD execution))
        else
          let db2 := setExecStatus db1 execution_id .rejected
          (db2, .ok ((findToolExecution db2 execution_id).getD execution))

/-! ## Orchestrator (app/orchestrator/service.py) -/

/-- The process-wide `self._max_event_hops = 10` bound. -/
def maxEventHops : Nat := 10

/-- The `ValueError` message raised at the depth guard. -/
def maxHopsError : String := "Max event hops (10) reached"

/-- `OrchestratorService._get_subscribed_installations` (with the cache
modelled as a miss, so the authoritative store is read): the user's
installations with status `active`, kept when their manifest exists and
lists the event type among `subscribed_events`. -/
def _get_subscribed_installations (db : DB) (user_id : Nat)
    (event_type : String) : List AgentInstallation :=
  let installations := db.installations.filter
    (fun i => i.user_id = user_id ∧ i.status = "active")
  installations.filter (fun i =>
    match findManifest db i.agent_id i.version with
    | none => false
    | some m => event_type ∈ m.subscribed_events)

/-- `OrchestratorService._build_agent_context`: user profile and shared
context are read from the current session state (empty mapping when the
row is absent), agent memory from the installation's `agent_context` row,
and `recent_events` is the user's event log ordered newest first, limited
to 10 — the append-only log position stands in for `created_at`. -/
def _build_agent_context (db : DB) (installation : AgentInstallation) :
    SDKAgentContext :=
  let user := (findUser db installation.user_id).getD
    { id := installation.user_id, profile := none, shared_context := none }
  let user_profile := user.profile.getD []
  let shared_context := user.shared_context.getD []
  let agent_memory :=
    match findAgentContext db installation.id with
    | none => []
    | some c => c.agent_memory
  let recent_events :=
    ((db.events.filter (fun e => e.user_id = installation.user_id)).reverse.take 10).map
      (fun e => SDKEvent.mk e.event_type e.source_agent e.payload)
  { user_profile := user_profile, shared_context := shared_context,
    agent_memory := agent_memory, recent_events := recent_events }

/-- `OrchestratorService._execute_agent`: look up the agent (raising
`AgentNotRegistered` before any trace row exists), insert a `running`
trace, build the context, run `handle_event`. Success finalizes the trace
`completed`; an exception finalizes it `failed` with the error and
re-raises. -/
def _execute_agent (reg : AgentRegistry) (db : DB)
    (installation : AgentInstallation) (event : Event) :
    DB × Except String AgentResult :=
  match reg installation.agent_id installation.version with
  | none =>
      (db, .error ("Agent " ++ installation.agent_id ++ ":" ++
        installation.version ++ " not registered"))
  | some agent =>
      let trace : ExecutionTrace :=
        { id := db.nextId, event_id := event.id,
          agent_id := installation.agent_id,
          installation_id := installation.id,
          status := .running, error := none }
      let db1 : DB :=
        { db with traces := db.traces ++ [trace], nextId := db.nextId + 1 }
      let context := _build_agent_context db1 installation
      let sdk_event : SDKEvent :=
        { event_type := event.event_type, source_agent := event.source_agent,
          payload := event.payload }
      match agent.handle_event sdk_event context with
      | .ok result => (setTraceResult db1 trace.id .completed none, .ok result)
      | .error e => (setTraceResult db1 trace.id .failed (some e), .error e)

/-- `OrchestratorService._apply_context_updates`. Shared-context updates
are applied whenever non-empty — the source contains no check of the
manifest's `write_shared_context` permission: a missing `SharedContext`
row is created from the updates, an existing one is merged with
`dict.update`. Agent-memory updates behave the same on the
`agent_context` row. -/
def _apply_context_updates (db : DB) (installation : AgentInstallation)
    (result : AgentResult) : DB :=
  let db1 :=
    if result.shared_context_updates = [] then db
    else
      match findUser db installation.user_id with
      | none => db
      | some user =>
          let newContext :=
            match user.shared_context with
            | none => result.shared_context_updates
            | some current => dictUpdate current result.shared_context_updates
          { db with users := db.users.map (fun u =>
              if u.id = installation.user_id then
                { u with shared_context := some newContext } else u) }
  if result.agent_memory_updates = [] then db1
  else
    match findAgentContext db1 installation.id with
    | none =>
        { db1 with agent_contexts := db1.agent_contexts ++
            [{ installation_id := installation.id,
               agent_memory := result.agent_memory_updates }] }
    | some agent_context =>
        { db1 with agent_contexts := db1.agent_contexts.map (fun c =>
            if c.installation_id = installation.id then
              { c with agent_memory := dictUpdate agent_context.agent_memory result.agent_memory_updates }
            else c) }

/-- An emitted event buffered for the cascade: `event_type`, `payload` and
the stamped `source_agent`. -/
structure NewEventData where
  event_type : String
  payload : JMap
  source_agent : String
deriving DecidableEq, Repr

/-- The body of the `for installation in installations` loop of
`process_event`: skip on self-loop, run the agent; on success apply
context updates, create the requested tool executions (each in its own
`try` whose error is only logged) and buffer emitted events stamped with
the installation's `agent_id`; on exception append a `failed` trace and
continue. -/
def dispatchToInstallation (reg : AgentRegistry) (toolReg : ToolRegistry)
    (acc : DB × List NewEventData) (event : Event)
    (source_agent : Option String) (user_id : Nat)
    (installation : AgentInstallation) : DB × List NewEventData :=
  let db := acc.1
  let new_events := acc.2
  if source_agent = some installation.agent_id then (db, new_events)
  else
    match _execute_agent reg db installation event with
    | (db1, .ok result) =>
        let db2 := _apply_context_updates db1 installation result
        let db3 := result.tool_executions.foldl (fun d tr =>
            (execute_tool toolReg d user_id installation.agent_id
              (some installation.id) tr.tool_id tr.payload).1) db2
        (db3, new_events ++ result.events.map (fun e =>
          { event_type := e.event_type, payload := e.payload,
            source_agent := installation.agent_id }))
    | (db1, .error e) =>
        let failed_trace : ExecutionTrace :=
          { id := db1.nextId, event_id := event.id,
            agent_id := installation.agent_id,
            installation_id := installation.id,
            status := .failed, error := some e }
        ({ db1 with traces := db1.traces ++ [failed_trace],
                    nextId := db1.nextId + 1 }, new_events)

/-- Drain a buffered cascade list: each deeper dispatch runs inside a
`try` whose exception is only logged, so the resulting session state is
kept either way (`processOne` returns the state paired with the outcome). -/
def cascadeList (processOne : DB → NewEventData → DB × Except String Event) :
    List NewEventData → DB → DB
  | [], db => db
  | ned :: rest, db => cascadeList processOne rest (processOne db ned).1

/-- `OrchestratorService.process_event`, with the recursion driven by the
remaining hop budget `gas = maxEventHops - event_hop`: `gas = 0` exactly
when `event_hop >= self._max_event_hops`, in which case the dispatch fails
with the max-hops `ValueError` before persisting anything, as in the
source guard. Otherwise: persist the event, resolve subscribed
installations, run the per-installation loop, commit (a no-op here: the
session state is already threaded), then recursively dispatch each
buffered event at the next hop (budget `gas - 1`). -/
def processEventAux (reg : AgentRegistry) (toolReg : ToolRegistry) :
    Nat → DB → Nat → String → JMap → Option String →
    DB × Except String Event
  | 0, db, _, _, _, _ => (db, .error maxHopsError)
  | gas + 1, db, user_id, event_type, payload, source_agent =>
      let event : Event :=
        { id := db.nextId, user_id := user_id, event_type := event_type,
          source_agent := source_agent, payload := payload }
      let db1 : DB :=
        { db with events := db.events ++ [event], nextId := db.nextId + 1 }
      let installations := _get_subscribed_installations db1 user_id event_type
      let res := installations.foldl
        (fun acc inst =>
          dispatchToInstallation reg toolReg acc event source_agent user_id inst)
        (db1, [])
      let db2 := cascadeList
        (fun d ned => processEventAux reg toolReg gas d user_id
          ned.event_type ned.payload (some ned.source_agent))
        res.2 res.1
      (db2, .ok event)

/-- `OrchestratorService.process_event` at a given `event_hop`. -/
def process_event (reg : AgentRegistry) (toolReg : ToolRegistry) (db : DB)
    (user_id : Nat) (event_type : String) (payload : JMap)
    (source_agent : Option String) (event_hop : Nat) :
    DB × Except String Event :=
  processEventAux reg toolReg (maxEventHops - event_hop) db user_id
    event_type payload source_agent

/-! ## Concrete fixtures for witnesses and counterexamples -/

/-- A blank database with the id counter at 50. -/
def emptyDB : DB :=
  { users := [], manifests := [], installations := [], agent_contexts := [],
    events := [], traces := [], tool_definitions := [], tool_executions := [],
    human_approvals := [], nextId := 50 }

/-- A tool implementation that always succeeds with an empty mapping. -/
def okTool : ToolImpl := fun _ => .ok []

/-- A tool implementation that always raises. -/
def boomTool : ToolImpl := fun _ => .error "boom"

/-- Database holding one tool definition with
`requires_human_approval = "optional"`. -/
def dbOptionalTool : DB :=
  { emptyDB with tool_definitions :=
      [{ tool_id := "notify", requires_human_approval := "optional",
         risk_level := "low" }] }

/-- Registry carrying the succeeding implementation of `notify`. -/
def regNotifyOk : ToolRegistry :=
  fun t => if t = "notify" then some okTool else none

/-- Database holding one tool definition with
`requires_human_approval = "true"`. -/
def dbTrueTool : DB :=
  { emptyDB with tool_definitions :=
      [{ tool_id := "audit", requires_human_approval := "true",
         risk_level := "high" }] }

/-- Database holding one auto-executed tool whose implementation raises. -/
def dbBoomTool : DB :=
  { emptyDB with tool_definitions :=
      [{ tool_id := "risky", requires_human_approval := "false",
         risk_level := "high" }] }

/-- Registry carrying the raising implementation of `risky`. -/
def regRiskyBoom : ToolRegistry :=
  fun t => if t = "risky" then some boomTool else none

/-- A pending execution of the `notify` tool. -/
def pendingNotify : ToolExecution :=
  { id := 5, user_id := 1, agent_id := "A", installation_id := none,
    tool_id := "notify", payload := [], status := .pending }

/-- A completed execution of the `notify` tool. -/
def completedNotify : ToolExecution :=
  { id := 6, user_id := 1, agent_id := "A", installation_id := none,
    tool_id := "notify", payload := [], status := .completed }

/-- Database with one pending and one completed execution of `notify`. -/
def dbApprovals : DB :=
  { dbOptionalTool with tool_executions := [pendingNotify, completedNotify] }


/-- The single user of the orchestrator scenarios, with an empty (but
present) shared-context row. -/
def userOne : UserRow := { id := 1, profile := none, shared_context := some [] }

/-- An empty tool registry. -/
def toolRegNone : ToolRegistry := fun _ => none

/-- Agent `A`: writes `k := 1` into the shared context. -/
def agentA : AgentImpl :=
  { handle_event := fun _ _ => .ok
      { shared_context_updates := [("k", .jnum 1)], agent_memory_updates := [],
        events := [], tool_executions := [], status := "completed",
        error := none } }

/-- Agent `B`: copies the shared context it received verbatim into its
agent-memory updates, making the context it observed durable. -/
def agentB : AgentImpl :=
  { handle_event := fun _ ctx => .ok
      { shared_context_updates := [], agent_memory_updates := ctx.shared_context,
        events := [], tool_executions := [], status := "completed",
        error := none } }

/-- Registry with `A` and `B` at version 1. -/
def regAB : AgentRegistry := fun aid ver =>
  if aid = "A" ∧ ver = "1" then some agentA
  else if aid = "B" ∧ ver = "1" then some agentB
  else none

/-- Database where user 1 has `A` and `B` installed, both subscribed to
event type `e` with write permission, and `A` dispatched first. -/
def dbTwoAgents : DB :=
  { users := [userOne],
    manifests :=
      [{ agent_id := "A", version := "1", status := "active",
         subscribed_events := ["e"], write_shared_context := true },
       { agent_id := "B", version := "1", status := "active",
         subscribed_events := ["e"], write_shared_context := true }],
    installations :=
      [{ id := 1, user_id := 1, agent_id := "A", version := "1",
         status := "active" },
       { id := 2, user_id := 1, agent_id := "B", version := "1",
         status := "active" }],
    agent_contexts := [], events := [], traces := [], tool_definitions := [],
    tool_executions := [], human_approvals := [], nextId := 100 }

/-- Agent `P`: emits a `b` event whenever invoked. -/
def pingP : AgentImpl :=
  { handle_event := fun _ _ => .ok
      { shared_context_updates := [], agent_memory_updates := [],
        events := [{ event_type := "b", source_agent := none, payload := [] }],
        tool_executions := [], status := "completed", error := none } }

/-- Agent `Q`: emits an `a` event whenever invoked. -/
def pingQ : AgentImpl :=
  { handle_event := fun _ _ => .ok
      { shared_context_updates := [], agent_memory_updates := [],
        events := [{ event_type := "a", source_agent := none, payload := [] }],
        tool_executions := [], status := "completed", error := none } }

/-- Registry with the ping-pong agents `P` and `Q`. -/
def regPing : AgentRegistry := fun aid ver =>
  if aid = "P" ∧ ver = "1" then some pingP
  else if aid = "Q" ∧ ver = "1" then some pingQ
  else none

/-- Database where `P` subscribes to `a` and `Q` subscribes to `b`, so an
external `a` event ping-pongs between them forever but for the hop
bound. -/
def dbPing : DB :=
  { users := [userOne],
    manifests :=
      [{ agent_id := "P", version := "1", status := "active",
         subscribed_events := ["a"], write_shared_context := false },
       { agent_id := "Q", version := "1", status := "active",
         subscribed_events := ["b"], write_shared_context := false }],
    installations :=
      [{ id := 1, user_id := 1, agent_id := "P", version := "1",
         status := "active" },
       { id := 2, user_id := 1, agent_id := "Q", version := "1",
         status := "active" }],
    agent_contexts := [], events := [], traces := [], tool_definitions := [],
    tool_executions := [], human_approvals := [], nextId := 100 }

/-- Agent `Z`: returns a non-empty shared-context update even though its
manifest (in `dbNoPerm`) denies `write_shared_context`. -/
def agentZ : AgentImpl :=
  { handle_event := fun _ _ => .ok
      { shared_context_updates := [("a", .jnum 1)], agent_memory_updates := [],
        events := [], tool_executions := [], status := "completed",
        error := none } }

/-- Registry with only `Z`. -/
def regZ : AgentRegistry := fun aid ver =>
  if aid = "Z" ∧ ver = "1" then some agentZ else none

/-- Database where `Z` is installed for user 1 with
`write_shared_context = false` in its manifest. -/
def dbNoPerm : DB :=
  { users := [userOne],
    manifests :=
      [{ agent_id := "Z", version := "1", status := "active",
         subscribed_events := ["e"], write_shared_context := false }],
    installations :=
      [{ id := 1, user_id := 1, agent_id := "Z", version := "1",
         status := "active" }],
    agent_contexts := [], events := [], traces := [], tool_definitions := [],
    tool_executions := [], human_approvals := [], nextId := 100 }

/-- Agent `F`: always raises. -/
def failAgent : AgentImpl :=
  { handle_event := fun _ _ => .error "agent exploded" }

/-- Agent `G`: writes shared context `k := "v"` and memory `m := 2`. -/
def writerAgent : AgentImpl :=
  { handle_event := fun _ _ => .ok
      { shared_context_updates := [("k", .jstr "v")],
        agent_memory_updates := [("m", .jnum 2)],
        events := [], tool_executions := [], status := "completed",
        error := none } }

/-- Registry with the failing agent `F` and the succeeding writer `G`. -/
def regFG : AgentRegistry := fun aid ver =>
  if aid = "F" ∧ ver = "1" then some failAgent
  else if aid = "G" ∧ ver = "1" then some writerAgent
  else none

/-- Database where `F` (failing) and `G` (succeeding) are both subscribed
to `e`; each has an existing agent-memory row. -/
def dbFG : DB :=
  { users := [userOne],
    manifests :=
      [{ agent_id := "F", version := "1", status := "active",
         subscribed_events := ["e"], write_shared_context := true },
       { agent_id := "G", version := "1", status := "active",
         subscribed_events := ["e"], write_shared_context := true }],
    installations :=
      [{ id := 1, user_id := 1, agent_id := "F", version := "1",
         status := "active" },
       { id := 2, user_id := 1, agent_id := "G", version := "1",
         status := "active" }],
    agent_contexts :=
      [{ installation_id := 1, agent_memory := [("old", .jnum 1)] },
       { installation_id := 2, agent_memory := [] }],
    events := [], traces := [], tool_definitions := [], tool_executions := [],
    human_approvals := [], nextId := 100 }

/-- A pre-existing event used by the recent-events witness. -/
def evPing : Event :=
  { id := 41, user_id := 1, event_type := "ping", source_agent := none,
    payload := [] }

/-- Database whose event log ends with `evPing`. -/
def dbRecent : DB :=
  { emptyDB with users := [userOne], events := [evPing] }

/-- Database with a user but no installations at all. -/
def dbNoSub : DB := { emptyDB with users := [userOne] }

/-! ## General list lemmas used throughout -/

/-- `find?` commutes with a `map` that preserves the predicate. -/
theorem find?_map_pres {α : Type} (p : α → Bool) (f : α → α)
    (h1 : ∀ x, p (f x) = p x) :
    ∀ l : List α, (l.map f).find? p = (l.find? p).map f := by
  intro l
  induction l with
  | nil => rfl
  | cons x xs ih =>
      by_cases hx : p x
      · rw [List.map_cons, List.find?_cons_of_pos _ ((h1 x).trans hx ▸ rfl),
          List.find?_cons_of_pos _ hx]
        · rfl
      · have hfx : ¬ p (f x) := by rw [h1 x]; exact hx
        rw [List.map_cons, List.find?_cons_of_neg _ (by simp [hfx]),
          List.find?_cons_of_neg _ (by simp [hx]), ih]

/-- `find?` skips a prefix containing no match. -/
theorem find?_append_right {α : Type} (p : α → Bool) (l₂ : List α) :
    ∀ l₁ : List α, (∀ x ∈ l₁, ¬ p x) → (l₁ ++ l₂).find? p = l₂.find? p := by
  intro l₁
  induction l₁ with
  | nil => intro _; rfl
  | cons x xs ih =>
      intro h
      rw [List.cons_append, List.find?_cons_of_neg _ (by simp [h x (by simp)])]
      exact ih (fun y hy => h y (List.mem_cons_of_mem x hy))

/-- `find?` ignores a `map` that fixes every matching element and
preserves the predicate. -/
theorem find?_map_invariant {α : Type} (p : α → Bool) (f : α → α)
    (h1 : ∀ x, p (f x) = p x) (h2 : ∀ x, p x = true → f x = x)
    (l : List α) : (l.map f).find? p = l.find? p := by
  rw [find?_map_pres p f h1]
  rcases hf : l.find? p with _ | x
  · rfl
  · simp [h2 x (List.find?_some hf)]

/-- A per-row status update touching only absent ids is the identity. -/
theorem map_status_fresh (l : List ToolExecution) (i : Nat) (s : ExecStatus)
    (h : ∀ e ∈ l, e.id ≠ i) :
    l.map (fun e => if e.id = i then { e with status := s } else e) = l :=
  (List.map_congr_left (fun e he => if_neg (h e he))).trans l.map_id'

/-- Where `setExecStatus` sends a `findToolExecution` lookup. -/
theorem findToolExecution_setExecStatus (db : DB) (i : Nat) (s : ExecStatus)
    (j : Nat) :
    findToolExecution (setExecStatus db i s) j =
      (findToolExecution db j).map
        (fun e => if e.id = i then { e with status := s } else e) := by
  unfold findToolExecution setExecStatus
  exact find?_map_pres _ _ (fun e => by by_cases he : e.id = i <;> simp [he]) _

/-- `_execute_tool_internal` always leaves the targeted execution in
status `completed` or `failed`, whatever the registry and implementation
do. -/
theorem _execute_tool_internal_result (reg : ToolRegistry) (db : DB)
    (i : Nat) (tid : String) (p : JMap) :
    ∃ s : ExecStatus, (s = .completed ∨ s = .failed) ∧
      (_execute_tool_internal reg db i tid p).1 =
        setExecStatus (setExecStatus db i .executing) i s := by
  unfold _execute_tool_internal
  cases hreg : reg tid with
  | none => exact ⟨.failed, Or.inr rfl, by simp [hreg]⟩
  | some impl =>
      cases himpl : impl p with
      | error e => exact ⟨.failed, Or.inr rfl, by simp [hreg, himpl]⟩
      | ok r => exact ⟨.completed, Or.inl rfl, by simp [hreg, himpl]⟩

/-! ## C3 — approval gating in `execute_tool` -/

/-- C3 counterexample: the claim says a tool with
`requires_human_approval = "optional"` is left `pending` without invoking
the implementation, but `execute_tool` only defers when the column equals
the string `"true"`; on the `optional` tool the implementation runs
synchronously and the stored execution ends `completed`, not `pending`. -/
theorem C3_counterexample :
    execute_tool regNotifyOk dbOptionalTool 1 "A" none "notify" [] =
      ({ dbOptionalTool with
          tool_executions :=
            [{ id := 50, user_id := 1, agent_id := "A", installation_id := none,
               tool_id := "notify", payload := [], status := .completed }],
          nextId := 51 },
       .ok { id := 50, user_id := 1, agent_id := "A", installation_id := none,
             tool_id := "notify", payload := [], status := .completed }) := by
  rfl

/-- C3 (amended): `execute_tool` defers to human approval exactly when
`requires_human_approval` is the string `"true"`, leaving the new
execution `pending` and untouched; for every other value of the column
(including `"optional"` and `"always"`) the implementation is driven
synchronously and the stored execution ends `completed` or `failed`,
never `pending`. -/
theorem C3_gate_only_string_true (reg : ToolRegistry) (db : DB)
    (user_id : Nat) (agent_id : String) (installation_id : Option Nat)
    (tool_id : String) (payload : JMap) (td : ToolDefinition)
    (hfind : findToolDefinition db tool_id = some td)
    (hfresh : ∀ e ∈ db.tool_executions, e.id ≠ db.nextId) :
    (td.requires_human_approval = "true" →
      execute_tool reg db user_id agent_id installation_id tool_id payload =
        ({ db with
            tool_executions := db.tool_executions ++
              [{ id := db.nextId, user_id := user_id, agent_id := agent_id,
                 installation_id := installation_id, tool_id := tool_id,
                 payload := payload, status := .pending }],
            nextId := db.nextId + 1 },
         .ok { id := db.nextId, user_id := user_id, agent_id := agent_id,
               installation_id := installation_id, tool_id := tool_id,
               payload := payload, status := .pending })) ∧
    (td.requires_human_approval ≠ "true" →
      ∀ ex, findToolExecution
          (execute_tool reg db user_id agent_id installation_id tool_id
            payload).1 db.nextId = some ex →
        ex.status = .completed ∨ ex.status = .failed) := by
  have hbase : findToolExecution
      { db with
          tool_executions := db.tool_executions ++
            [{ id := db.nextId, user_id := user_id, agent_id := agent_id,
               installation_id := installation_id, tool_id := tool_id,
               payload := payload, status := .pending }],
          nextId := db.nextId + 1 } db.nextId =
      some { id := db.nextId, user_id := user_id, agent_id := agent_id,
             installation_id := installation_id, tool_id := tool_id,
             payload := payload, status := .pending } := by
    unfold findToolExecution
    rw [find?_append_right _ _ _ (by intro x hx; simpa using hfresh x hx)]
    simp
  constructor
  · intro h
    simp [execute_tool, hfind, h]
  · intro h ex hex
    obtain ⟨s, hs, heq⟩ := _execute_tool_internal_result reg
      { db with
          tool_executions := db.tool_executions ++
            [{ id := db.nextId, user_id := user_id, agent_id := agent_id,
               installation_id := installation_id, tool_id := tool_id,
               payload := payload, status := .pending }],
          nextId := db.nextId + 1 } db.nextId tool_id payload
    have h1 : (execute_tool reg db user_id agent_id installation_id tool_id
        payload).1 = setExecStatus (setExecStatus
          { db with
              tool_executions := db.tool_executions ++
                [{ id := db.nextId, user_id := user_id, agent_id := agent_id,
                   installation_id := installation_id, tool_id := tool_id,
                   payload := payload, status := .pending }],
              nextId := db.nextId + 1 } db.nextId .executing) db.nextId s := by
      rw [execute_tool, hfind]
      simp only [h, ite_false, if_false]
      exact heq
    rw [h1, findToolExecution_setExecStatus, findToolExecution_setExecStatus,
      hbase] at hex
    simp at hex
    rcases hs with hs | hs
    · left; rw [← hex, hs]
    · right; rw [← hex, hs]

/-- C3 witness: the amended theorem applied to the concrete `"true"` tool
on a fresh database. -/
theorem C3_witness :
    ((("true" : String) = "true" →
      execute_tool regNotifyOk dbTrueTool 7 "B" none "audit" [] =
        ({ dbTrueTool with
            tool_executions :=
              [{ id := 50, user_id := 7, agent_id := "B",
                 installation_id := none, tool_id := "audit", payload := [],
                 status := .pending }],
            nextId := 51 },
         .ok { id := 50, user_id := 7, agent_id := "B",
               installation_id := none, tool_id := "audit", payload := [],
               status := .pending })) ∧
    (("true" : String) ≠ "true" →
      ∀ ex, findToolExecution
          (execute_tool regNotifyOk dbTrueTool 7 "B" none "audit" []).1
          50 = some ex →
        ex.status = .completed ∨ ex.status = .failed)) :=
  C3_gate_only_string_true regNotifyOk dbTrueTool 7 "B" none "audit" []
    { tool_id := "audit", requires_human_approval := "true",
      risk_level := "high" } (by decide) (by decide)

/-! ## C5 — failing tool implementations -/

/-- C5 counterexample: the claim says an exception from the implementation
is captured on the execution record and does not propagate out of the tool
executor, but on a raising implementation `execute_tool` returns the
exception (`Except.error "boom"`) to its caller, and the execution record
carries only `status = failed` — the model has no error column, so nothing
is captured. -/
theorem C5_counterexample :
    execute_tool regRiskyBoom dbBoomTool 1 "A" none "risky" [] =
      ({ dbBoomTool with
          tool_executions :=
            [{ id := 50, user_id := 1, agent_id := "A", installation_id := none,
               tool_id := "risky", payload := [], status := .failed }],
          nextId := 51 },
       .error "boom") := by
  rfl

/-- C5 (amended): when the registered implementation of a synchronously
executed tool raises, the execution's status becomes `failed` (no error
text is stored — the record has no error column) and the exception
propagates out of `execute_tool` to its caller; the orchestrator catches
it per-request. -/
theorem C5_failure_sets_failed_and_propagates (reg : ToolRegistry) (db : DB)
    (user_id : Nat) (agent_id : String) (installation_id : Option Nat)
    (tool_id : String) (payload : JMap) (td : ToolDefinition)
    (impl : ToolImpl) (e : String)
    (hfind : findToolDefinition db tool_id = some td)
    (hna : td.requires_human_approval ≠ "true")
    (hreg : reg tool_id = some impl)
    (himpl : impl payload = .error e)
    (hfresh : ∀ ex ∈ db.tool_executions, ex.id ≠ db.nextId) :
    execute_tool reg db user_id agent_id installation_id tool_id payload =
      ({ db with
          tool_executions := db.tool_executions ++
            [{ id := db.nextId, user_id := user_id, agent_id := agent_id,
               installation_id := installation_id, tool_id := tool_id,
               payload := payload, status := .failed }],
          nextId := db.nextId + 1 },
       .error e) := by
  rw [execute_tool, hfind]
  simp only [hna, ite_false, if_false]
  simp only [_execute_tool_internal, hreg, himpl]
  simp [setExecStatus, List.map_append,
    map_status_fresh db.tool_executions db.nextId .executing hfresh,
    map_status_fresh db.tool_executions db.nextId .failed hfresh]

/-- C5 witness: the amended theorem applied to the raising `risky` tool. -/
theorem C5_witness :
    execute_tool regRiskyBoom dbBoomTool 9 "Z" (some 3) "risky" [] =
      ({ dbBoomTool with
          tool_executions :=
            [{ id := 50, user_id := 9, agent_id := "Z",
               installation_id := some 3, tool_id := "risky", payload := [],
               status := .failed }],
          nextId := 51 },
       .error "boom") :=
  C5_failure_sets_failed_and_propagates regRiskyBoom dbBoomTool 9 "Z" (some 3)
    "risky" []
    { tool_id := "risky", requires_human_approval := "false",
      risk_level := "high" } boomTool "boom"
    (by decide) (by decide) rfl rfl (by decide)

/-! ## C6 — approval requires a pending execution -/

/-- C6: `approve_tool_execution` on an execution in any non-pending status
fails with the invalid-state error and changes nothing; on a pending
execution it always leaves the execution in a non-pending status, so a
second approval of the same execution fails and the tool cannot run
twice. -/
theorem C6_approve_requires_pending (reg : ToolRegistry) (db : DB)
    (execution_id reviewer_id : Nat) (decision : String)
    (comment : Option String) (ex : ToolExecution)
    (hfind : findToolExecution db execution_id = some ex) :
    (ex.status ≠ .pending →
      approve_tool_execution reg db execution_id reviewer_id decision
          comment =
        (db, .error ("Tool execution " ++ toString execution_id ++
          " is not pending approval"))) ∧
    (ex.status = .pending →
      ∀ ex', findToolExecution
          (approve_tool_execution reg db execution_id reviewer_id decision
            comment).1 execution_id = some ex' →
        ex'.status ≠ .pending) := by
  have hid : ex.id = execution_id := by
    simpa using List.find?_some hfind
  constructor
  · intro h
    simp [approve_tool_execution, hfind, h]
  · intro h ex' hex'
    have hfind1 : findToolExecution
        { db with human_approvals := db.human_approvals ++
            [{ tool_execution_id := execution_id, reviewer_id := reviewer_id,
               decision := decision, comment := comment }] } execution_id =
        some ex := hfind
    rw [approve_tool_execution, hfind] at hex'
    simp only [] at hex'
    rw [if_neg (by simp [h])] at hex'
    by_cases hdec : decision = "approved"
    · rw [if_pos hdec] at hex'
      rcases hdef : findToolDefinition db ex.tool_id with _ | td
      · have hdef2 : findToolDefinition (setExecStatus
            { db with human_approvals := db.human_approvals ++
                [{ tool_execution_id := execution_id,
                   reviewer_id := reviewer_id, decision := decision,
                   comment := comment }] } execution_id .approved)
            ex.tool_id = none := hdef
        rw [hdef2] at hex'
        simp only [] at hex'
        rw [findToolExecution_setExecStatus, hfind1] at hex'
        simp [hid] at hex'
        rw [← hex']
        simp
      · have hdef2 : findToolDefinition (setExecStatus
            { db with human_approvals := db.human_approvals ++
                [{ tool_execution_id := execution_id,
                   reviewer_id := reviewer_id, decision := decision,
                   comment := comment }] } execution_id .approved)
            ex.tool_id = some td := hdef
        rw [hdef2] at hex'
        simp only [] at hex'
        obtain ⟨s, hs, heq⟩ := _execute_tool_internal_result reg
          (setExecStatus
            { db with human_approvals := db.human_approvals ++
                [{ tool_execution_id := execution_id,
                   reviewer_id := reviewer_id, decision := decision,
                   comment := comment }] } execution_id .approved)
          execution_id ex.tool_id ex.payload
        rw [heq, findToolExecution_setExecStatus,
          findToolExecution_setExecStatus, findToolExecution_setExecStatus,
          hfind1] at hex'
        simp [hid] at hex'
        rw [← hex']
        rcases hs with hs | hs <;> simp [hs]
    · rw [if_neg hdec] at hex'
      simp only [] at hex'
      rw [findToolExecution_setExecStatus, hfind1] at hex'
      simp [hid] at hex'
      rw [← hex']
      simp

/-- C6 witness: approving the already-completed execution fails with the
invalid-state error and leaves the database untouched, and a pending
execution never returns to `pending` after approval. -/
theorem C6_witness :
    ((ExecStatus.completed ≠ ExecStatus.pending →
      approve_tool_execution regNotifyOk dbApprovals 6 2 "approved" none =
        (dbApprovals, .error ("Tool execution " ++ toString (6 : Nat) ++
          " is not pending approval"))) ∧
    (ExecStatus.completed = ExecStatus.pending →
      ∀ ex', findToolExecution
          (approve_tool_execution regNotifyOk dbApprovals 6 2 "approved"
            none).1 6 = some ex' →
        ex'.status ≠ .pending)) :=
  C6_approve_requires_pending regNotifyOk dbApprovals 6 2 "approved" none
    completedNotify (by decide)

/-! ## C9 — any non-"approved" decision rejects -/

/-- C9: for a pending execution, any decision string other than exactly
`"approved"` records a `HumanApproval` with that verbatim decision, sets
the execution's status to `rejected`, and nothing else changes — in
particular the tool implementation is never invoked. -/
theorem C9_other_decisions_reject (reg : ToolRegistry) (db : DB)
    (execution_id reviewer_id : Nat) (decision : String)
    (comment : Option String) (ex : ToolExecution)
    (hfind : findToolExecution db execution_id = some ex)
    (hpend : ex.status = .pending)
    (hdec : decision ≠ "approved") :
    approve_tool_execution reg db execution_id reviewer_id decision comment =
      ({ db with
          human_approvals := db.human_approvals ++
            [{ tool_execution_id := execution_id, reviewer_id := reviewer_id,
               decision := decision, comment := comment }],
          tool_executions := db.tool_executions.map (fun e =>
            if e.id = execution_id then { e with status := .rejected }
            else e) },
       .ok { ex with status := .rejected }) := by
  have hid : ex.id = execution_id := by
    simpa using List.find?_some hfind
  have hfind1 : findToolExecution
      { db with human_approvals := db.human_approvals ++
          [{ tool_execution_id := execution_id, reviewer_id := reviewer_id,
             decision := decision, comment := comment }] } execution_id =
      some ex := hfind
  rw [approve_tool_execution, hfind]
  simp only []
  rw [if_neg (by simp [hpend]), if_neg hdec]
  rw [findToolExecution_setExecStatus, hfind1]
  simp [hid, setExecStatus]

/-- C9 witness: the decision string `"denied"` (outside the documented
vocabulary) rejects the pending execution with the verbatim decision
recorded. -/
theorem C9_witness :
    approve_tool_execution regNotifyOk dbApprovals 5 2 "denied" none =
      ({ dbApprovals with
          human_approvals :=
            [{ tool_execution_id := 5, reviewer_id := 2,
               decision := "denied", comment := none }],
          tool_executions :=
            [{ pendingNotify with status := .rejected }, completedNotify] },
       .ok { pendingNotify with status := .rejected }) := by
  have h := C9_other_decisions_reject regNotifyOk dbApprovals 5 2 "denied"
    none pendingNotify (by decide) (by decide) (by decide)
  simpa [dbApprovals, pendingNotify, completedNotify] using h

/-- Effect of one loop iteration on a raising agent: a `running` trace is
inserted and finalized `failed` with the error, the catch block appends a
second `failed` trace, the buffered events are untouched, and nothing
else changes. -/
theorem dispatch_failure_eq (reg : AgentRegistry) (toolReg : ToolRegistry)
    (db : DB) (evts : List NewEventData) (ev : Event) (sa : Option String)
    (uid : Nat) (a : AgentInstallation) (agF : AgentImpl) (msg : String)
    (hsa : sa ≠ some a.agent_id)
    (hreg : reg a.agent_id a.version = some agF)
    (hag : ∀ e c, agF.handle_event e c = .error msg) :
    dispatchToInstallation reg toolReg (db, evts) ev sa uid a =
      ({ db with
          traces := (db.traces ++
            [({ id := db.nextId, event_id := ev.id, agent_id := a.agent_id,
                installation_id := a.id, status := .running,
                error := none } : ExecutionTrace)]).map (fun t =>
                  if t.id = db.nextId then
                    { t with status := TraceStatus.failed, error := some msg }
                  else t) ++
            [({ id := db.nextId + 1, event_id := ev.id, agent_id := a.agent_id,
                installation_id := a.id, status := .failed,
                error := some msg } : ExecutionTrace)],
          nextId := db.nextId + 1 + 1 }, evts) := by
  simp only [dispatchToInstallation]
  rw [if_neg hsa]
  simp only [_execute_agent, hreg, hag]
  simp only [setTraceResult]

/-- Effect of one loop iteration on a succeeding agent that requests no
tools and has non-empty shared-context and agent-memory updates, with the
user's shared-context row and the installation's memory row present: the
rows are shallow-merged and the trace is finalized `completed`. -/
theorem dispatch_success_eq (reg : AgentRegistry) (toolReg : ToolRegistry)
    (db : DB) (evts : List NewEventData) (ev : Event) (sa : Option String)
    (uid : Nat) (b : AgentInstallation) (agG : AgentImpl) (rG : AgentResult)
    (u : UserRow) (sc : JMap) (cb : AgentContextRow)
    (hsa : sa ≠ some b.agent_id)
    (hreg : reg b.agent_id b.version = some agG)
    (hag : ∀ e c, agG.handle_event e c = .ok rG)
    (hrt : rG.tool_executions = [])
    (hU : rG.shared_context_updates ≠ [])
    (hu : findUser db b.user_id = some u)
    (husc : u.shared_context = some sc)
    (hmem : rG.agent_memory_updates ≠ [])
    (hcb : findAgentContext db b.id = some cb) :
    dispatchToInstallation reg toolReg (db, evts) ev sa uid b =
      ({ db with
          users := db.users.map (fun x =>
            if x.id = b.user_id then
              { x with shared_context := some (dictUpdate sc rG.shared_context_updates) }
            else x),
          agent_contexts := db.agent_contexts.map (fun c =>
            if c.installation_id = b.id then
              { c with agent_memory := dictUpdate cb.agent_memory rG.agent_memory_updates }
            else c),
          traces := (db.traces ++
            [({ id := db.nextId, event_id := ev.id, agent_id := b.agent_id,
                installation_id := b.id, status := .running,
                error := none } : ExecutionTrace)]).map (fun t =>
                  if t.id = db.nextId then
                    { t with status := TraceStatus.completed, error := none }
                  else t),
          nextId := db.nextId + 1 },
       evts ++ rG.events.map (fun e =>
         { event_type := e.event_type, payload := e.payload,
           source_agent := b.agent_id })) := by
  have hu4 : findUser (setTraceResult
      { db with
          traces := db.traces ++
            [({ id := db.nextId, event_id := ev.id, agent_id := b.agent_id,
                installation_id := b.id, status := .running,
                error := none } : ExecutionTrace)],
          nextId := db.nextId + 1 } db.nextId .completed none)
      b.user_id = some u := hu
  have hcb4 : findAgentContext
      { setTraceResult
          { db with
              traces := db.traces ++
                [({ id := db.nextId, event_id := ev.id, agent_id := b.agent_id,
                    installation_id := b.id, status := .running,
                    error := none } : ExecutionTrace)],
              nextId := db.nextId + 1 } db.nextId .completed none with
        users := (setTraceResult
          { db with
              traces := db.traces ++
                [({ id := db.nextId, event_id := ev.id, agent_id := b.agent_id,
                    installation_id := b.id, status := .running,
                    error := none } : ExecutionTrace)],
              nextId := db.nextId + 1 } db.nextId .completed none).users.map
            (fun x =>
              if x.id = b.user_id then
                { x with shared_context := some (dictUpdate sc rG.shared_context_updates) }
              else x) } b.id = some cb := hcb
  simp only [dispatchToInstallation]
  rw [if_neg hsa]
  simp only [_execute_agent, hreg, hag]
  simp only [hrt, List.foldl_nil]
  simp only [_apply_context_updates]
  rw [if_neg hU, hu4]
  simp only [husc]
  rw [if_neg hmem, hcb4]
  simp only [setTraceResult]

/-! ## C10 — events with no subscribers -/

/-- C10: below the depth bound, when no active installation of the user
subscribes to the event type, `process_event` persists the event and
returns it, and nothing else changes: no traces, no tool executions, no
cascades. -/
theorem C10_no_subscribers (reg : AgentRegistry) (toolReg : ToolRegistry)
    (db : DB) (user_id : Nat) (event_type : String) (payload : JMap)
    (source_agent : Option String) (event_hop : Nat)
    (hhop : event_hop < maxEventHops)
    (hsub : _get_subscribed_installations db user_id event_type = []) :
    process_event reg toolReg db user_id event_type payload source_agent
        event_hop =
      ({ db with
          events := db.events ++
            [{ id := db.nextId, user_id := user_id, event_type := event_type,
               source_agent := source_agent, payload := payload }],
          nextId := db.nextId + 1 },
       .ok { id := db.nextId, user_id := user_id, event_type := event_type,
             source_agent := source_agent, payload := payload }) := by
  have hsub1 : _get_subscribed_installations
      { db with
          events := db.events ++
            [{ id := db.nextId, user_id := user_id, event_type := event_type,
               source_agent := source_agent, payload := payload }],
          nextId := db.nextId + 1 } user_id event_type = [] := hsub
  obtain ⟨g, hg⟩ : ∃ g, maxEventHops - event_hop = g + 1 :=
    ⟨maxEventHops - event_hop - 1, by omega⟩
  unfold process_event
  rw [hg]
  simp only [processEventAux, hsub1, List.foldl_nil, cascadeList]

/-- C10 witness: an `e` event for the user with no installations is
persisted and returned with no other effect. -/
theorem C10_witness :
    process_event regAB toolRegNone dbNoSub 1 "e" [] none 0 =
      ({ dbNoSub with
          events := [{ id := 50, user_id := 1, event_type := "e",
                       source_agent := none, payload := [] }],
          nextId := 51 },
       .ok { id := 50, user_id := 1, event_type := "e", source_agent := none,
             payload := [] }) :=
  C10_no_subscribers regAB toolRegNone dbNoSub 1 "e" [] none 0 (by decide) rfl

/-! ## C8 — the dispatched event heads the recent-events snapshot -/

/-- C8: when the event log ends with event `ev` of the installation's
user — exactly the state in which `process_event` builds contexts,
having already appended the event being dispatched — the `recent_events`
snapshot (newest first, limit 10) built for that installation carries
`ev` as its first element. -/
theorem C8_recent_events_snapshot (db : DB)
    (installation : AgentInstallation) (es : List Event) (ev : Event)
    (hev : db.events = es ++ [ev])
    (huser : ev.user_id = installation.user_id) :
    (_build_agent_context db installation).recent_events.head? =
      some { event_type := ev.event_type, source_agent := ev.source_agent,
             payload := ev.payload } := by
  simp [_build_agent_context, hev, huser, List.filter_append]

/-- C8 witness: the snapshot built from the log ending in `evPing` starts
with `evPing`. -/
theorem C8_witness :
    (_build_agent_context dbRecent
        { id := 1, user_id := 1, agent_id := "A", version := "1",
          status := "active" }).recent_events.head? =
      some { event_type := "ping", source_agent := none, payload := [] } :=
  C8_recent_events_snapshot dbRecent
    { id := 1, user_id := 1, agent_id := "A", version := "1",
      status := "active" } [] evPing rfl rfl

/-! ## C2 — bounded cascade depth -/

/-- C2: a dispatch at depth at least `maxEventHops` fails with the
max-hops error before persisting anything, returning the database
untouched; and in the concrete ping-pong chain the cascade terminates
with exactly ten events persisted (hops 0 through 9) while the parent
dispatch still returns its event successfully — the eleventh dispatch's
failure is caught in the parent frame and rolls nothing back. -/
theorem C2_depth_bound :
    (∀ (reg : AgentRegistry) (toolReg : ToolRegistry) (db : DB)
       (user_id : Nat) (event_type : String) (payload : JMap)
       (source_agent : Option String) (event_hop : Nat),
       maxEventHops ≤ event_hop →
         process_event reg toolReg db user_id event_type payload source_agent
             event_hop =
           (db, .error maxHopsError)) ∧
    ((process_event regPing toolRegNone dbPing 1 "a" [] none 0).1.events.map
        (fun e => e.event_type) =
      ["a", "b", "a", "b", "a", "b", "a", "b", "a", "b"] ∧
     (process_event regPing toolRegNone dbPing 1 "a" [] none 0).2 =
      .ok { id := 100, user_id := 1, event_type := "a", source_agent := none,
            payload := [] }) := by
  refine ⟨?_, ?_, ?_⟩
  · intro reg toolReg db user_id event_type payload source_agent event_hop h
    unfold process_event
    rw [Nat.sub_eq_zero_of_le h]
    rfl
  · rfl
  · rfl

/-- C2 witness: the guard portion of the theorem applied at depth
`maxEventHops` itself, the eleventh frame of a chain started at depth 0:
the dispatch fails with the max-hops error and the state is untouched. -/
theorem C2_witness :
    process_event regPing toolRegNone dbPing 1 "a" [] none maxEventHops =
      (dbPing, .error maxHopsError) :=
  C2_depth_bound.1 regPing toolRegNone dbPing 1 "a" [] none maxEventHops
    (le_refl maxEventHops)

/-! ## C4 — the write permission is never consulted -/

/-- C4 counterexample: agent `Z` has `write_shared_context = false` in its
manifest and returns the non-empty update `a := 1`, yet after dispatch the
user's shared context contains `a := 1` — the claim that the shared
context is left unchanged is false on the code, which never reads the
permission. The trace is `completed`, as the claim says. -/
theorem C4_counterexample :
    (process_event regZ toolRegNone dbNoPerm 1 "e" [] none 0).1.users =
      [{ id := 1, profile := none,
         shared_context := some [("a", .jnum 1)] }] ∧
    (process_event regZ toolRegNone dbNoPerm 1 "e" [] none 0).1.traces =
      [{ id := 101, event_id := 100, agent_id := "Z", installation_id := 1,
         status := .completed, error := none }] := by
  exact ⟨rfl, rfl⟩

/-- C4 (amended): dispatching an event to an agent whose manifest sets
`write_shared_context = false` still applies the agent's non-empty
`shared_context_updates` to the user's shared context by shallow merge —
the permission hypothesis plays no role in the code — and the agent's
trace is finalized `completed`. -/
theorem C4_updates_applied_without_permission (reg : AgentRegistry)
    (toolReg : ToolRegistry) (db : DB) (new_events : List NewEventData)
    (ev : Event) (source_agent : Option String) (user_id : Nat)
    (z : AgentInstallation) (mz : ManifestRow) (az : AgentImpl)
    (r : AgentResult) (u : UserRow) (sc : JMap)
    (hm : findManifest db z.agent_id z.version = some mz)
    (hperm : mz.write_shared_context = false)
    (hsa : source_agent ≠ some z.agent_id)
    (hreg : reg z.agent_id z.version = some az)
    (haz : ∀ e c, az.handle_event e c = .ok r)
    (hrt : r.tool_executions = [])
    (hU : r.shared_context_updates ≠ [])
    (hrm : r.agent_memory_updates = [])
    (hz : z.user_id = user_id)
    (hu : findUser db user_id = some u)
    (husc : u.shared_context = some sc) :
    findUser (dispatchToInstallation reg toolReg (db, new_events) ev
        source_agent user_id z).1 user_id =
      some { u with
             shared_context := some (dictUpdate sc r.shared_context_updates) } ∧
    ∃ t ∈ (dispatchToInstallation reg toolReg (db, new_events) ev
        source_agent user_id z).1.traces,
      t.agent_id = z.agent_id ∧ t.installation_id = z.id ∧
        t.status = .completed := by
  have hid_u : u.id = user_id := by simpa using List.find?_some hu
  have hu4 : findUser
      { db with
          traces := (db.traces ++
            [({ id := db.nextId, event_id := ev.id, agent_id := z.agent_id,
                installation_id := z.id, status := .running,
                error := none } : ExecutionTrace)]).map (fun t =>
                 if t.id = db.nextId then
                   { t with status := TraceStatus.completed, error := none }
                 else t),
          nextId := db.nextId + 1 } z.user_id = some u := by
    rw [hz]; exact hu
  have hstep : dispatchToInstallation reg toolReg (db, new_events) ev
      source_agent user_id z =
      ({ db with
          users := db.users.map (fun x =>
            if x.id = z.user_id then
              { x with shared_context := some (dictUpdate sc r.shared_context_updates) }
            else x),
          traces := (db.traces ++
            [({ id := db.nextId, event_id := ev.id, agent_id := z.agent_id,
                installation_id := z.id, status := .running,
                error := none } : ExecutionTrace)]).map (fun t =>
                 if t.id = db.nextId then
                   { t with status := TraceStatus.completed, error := none }
                 else t),
          nextId := db.nextId + 1 },
       new_events ++ r.events.map (fun e =>
         { event_type := e.event_type, payload := e.payload,
           source_agent := z.agent_id })) := by
    simp only [dispatchToInstallation]
    rw [if_neg hsa]
    simp only [_execute_agent, hreg, haz]
    simp only [hrt, List.foldl_nil]
    simp only [_apply_context_updates, setTraceResult]
    rw [if_neg hU]
    rw [hu4]
    simp only [husc, hrm, ite_true, if_true]
  refine ⟨?_, ?_⟩
  · rw [hstep]
    show (db.users.map (fun x =>
        if x.id = z.user_id then
          { x with shared_context := some (dictUpdate sc r.shared_context_updates) }
        else x)).find? (fun x => x.id = user_id) = _
    rw [find?_map_pres _ _
      (fun x => by by_cases hx : x.id = z.user_id <;> simp [hx]) db.users]
    rw [show db.users.find? (fun x => x.id = user_id) = some u from hu]
    simp [hid_u, hz]
  · rw [hstep]
    refine ⟨{ id := db.nextId, event_id := ev.id, agent_id := z.agent_id,
              installation_id := z.id, status := .completed, error := none },
            ?_, rfl, rfl, rfl⟩
    show _ ∈ (db.traces ++
      [({ id := db.nextId, event_id := ev.id, agent_id := z.agent_id,
          installation_id := z.id, status := TraceStatus.running,
          error := none } : ExecutionTrace)]).map (fun t =>
           if t.id = db.nextId then
             { t with status := TraceStatus.completed, error := none }
           else t)
    exact List.mem_map.mpr
      ⟨{ id := db.nextId, event_id := ev.id, agent_id := z.agent_id,
         installation_id := z.id, status := .running, error := none },
       by simp, by simp⟩

/-- C4 witness: the amended theorem applied to the `Z` scenario. -/
theorem C4_witness :
    findUser (dispatchToInstallation regZ toolRegNone (dbNoPerm, [])
        { id := 100, user_id := 1, event_type := "e", source_agent := none,
          payload := [] } none 1
        { id := 1, user_id := 1, agent_id := "Z", version := "1",
          status := "active" }).1 1 =
      some { userOne with
             shared_context := some (dictUpdate [] [("a", .jnum 1)]) } ∧
    ∃ t ∈ (dispatchToInstallation regZ toolRegNone (dbNoPerm, [])
        { id := 100, user_id := 1, event_type := "e", source_agent := none,
          payload := [] } none 1
        { id := 1, user_id := 1, agent_id := "Z", version := "1",
          status := "active" }).1.traces,
      t.agent_id = "Z" ∧ t.installation_id = 1 ∧ t.status = .completed :=
  C4_updates_applied_without_permission regZ toolRegNone dbNoPerm []
    { id := 100, user_id := 1, event_type := "e", source_agent := none,
      payload := [] } none 1
    { id := 1, user_id := 1, agent_id := "Z", version := "1",
      status := "active" }
    { agent_id := "Z", version := "1", status := "active",
      subscribed_events := ["e"], write_shared_context := false }
    agentZ
    { shared_context_updates := [("a", .jnum 1)], agent_memory_updates := [],
      events := [], tool_executions := [], status := "completed",
      error := none }
    userOne [] rfl rfl (by simp) rfl (fun _ _ => rfl) rfl (by simp) rfl rfl
    rfl rfl

/-! ## C1 — later agents see earlier agents' shared-context updates -/

/-- C1 counterexample: both agents subscribe to `e`; `A` is dispatched
first and writes `k := 1` to the shared context, and `B` copies the
shared context it receives verbatim into its agent-memory updates. The
shared context is empty when the dispatch starts, yet after the dispatch
`B`'s stored memory is `[("k", 1)]`: the `AgentContext.shared_context`
handed to the later agent contained the earlier agent's update of the
same dispatch frame, refuting the claim. -/
theorem C1_counterexample :
    dbTwoAgents.users =
      [{ id := 1, profile := none, shared_context := some [] }] ∧
    (process_event regAB toolRegNone dbTwoAgents 1 "e" []
        none 0).1.agent_contexts =
      [{ installation_id := 2, agent_memory := [("k", .jnum 1)] }] ∧
    (process_event regAB toolRegNone dbTwoAgents 1 "e" []
        none 0).1.traces.map (fun t => t.status) =
      [.completed, .completed] :=
  ⟨rfl, rfl, rfl⟩

/-- C1 (amended): the agent context is rebuilt from the current session
state before each agent runs: a context built before the earlier agent's
updates are applied carries the shared context `sc`, while the context
built for a later agent after `_apply_context_updates` ran for an earlier
agent of the same frame carries `sc` shallow-merged with that agent's
updates — later agents observe earlier agents' mutations, not a snapshot
from the start of the dispatch. -/
theorem C1_later_agent_sees_earlier_updates (db : DB)
    (a b : AgentInstallation) (rA : AgentResult) (u : UserRow) (sc : JMap)
    (hu : findUser db b.user_id = some u)
    (husc : u.shared_context = some sc)
    (hab : a.user_id = b.user_id)
    (hU : rA.shared_context_updates ≠ [])
    (hrm : rA.agent_memory_updates = []) :
    (_build_agent_context db b).shared_context = sc ∧
    (_build_agent_context (_apply_context_updates db a rA) b).shared_context =
      dictUpdate sc rA.shared_context_updates := by
  have hid_u : u.id = b.user_id := by simpa using List.find?_some hu
  constructor
  · simp [_build_agent_context, hu, husc]
  · have happly : _apply_context_updates db a rA =
        { db with users := db.users.map (fun x =>
            if x.id = a.user_id then
              { x with shared_context := some (dictUpdate sc rA.shared_context_updates) }
            else x) } := by
      simp only [_apply_context_updates]
      rw [if_neg hU]
      rw [show findUser db a.user_id = some u from by rw [hab]; exact hu]
      simp only [husc, hrm, ite_true, if_true]
    rw [happly]
    have hfu : findUser
        { db with users := db.users.map (fun x =>
            if x.id = a.user_id then
              { x with shared_context := some (dictUpdate sc rA.shared_context_updates) }
            else x) } b.user_id =
        some { u with shared_context := some (dictUpdate sc rA.shared_context_updates) } := by
      show (db.users.map (fun x =>
          if x.id = a.user_id then
            { x with shared_context := some (dictUpdate sc rA.shared_context_updates) }
          else x)).find? (fun x => x.id = b.user_id) = _
      rw [find?_map_pres _ _
        (fun x => by by_cases hx : x.id = a.user_id <;> simp [hx]) db.users]
      rw [show db.users.find? (fun x => x.id = b.user_id) = some u from hu]
      simp [hid_u, hab]
    simp [_build_agent_context, hfu]

/-- C1 witness: the amended theorem applied to the `A`/`B` scenario:
before `A`'s update the built context's shared context is empty, after it
the context built for `B` carries `k := 1`. -/
theorem C1_witness :
    (_build_agent_context dbTwoAgents
        { id := 2, user_id := 1, agent_id := "B", version := "1",
          status := "active" }).shared_context = [] ∧
    (_build_agent_context
        (_apply_context_updates dbTwoAgents
          { id := 1, user_id := 1, agent_id := "A", version := "1",
            status := "active" }
          { shared_context_updates := [("k", .jnum 1)],
            agent_memory_updates := [], events := [], tool_executions := [],
            status := "completed", error := none })
        { id := 2, user_id := 1, agent_id := "B", version := "1",
          status := "active" }).shared_context =
      dictUpdate [] [("k", .jnum 1)] :=
  C1_later_agent_sees_earlier_updates dbTwoAgents
    { id := 1, user_id := 1, agent_id := "A", version := "1",
      status := "active" }
    { id := 2, user_id := 1, agent_id := "B", version := "1",
      status := "active" }
    { shared_context_updates := [("k", .jnum 1)], agent_memory_updates := [],
      events := [], tool_executions := [], status := "completed",
      error := none }
    userOne [] rfl rfl rfl (by simp) rfl

/-! ## C7 — per-agent failures are isolated -/

/-- C7: when agent `a` raises and agent `b` succeeds on the same event
(dispatched in the order `[a, b]`), the committed state carries `b`'s
shared-context and agent-memory updates, `a`'s rows are untouched, `a`
has a `failed` trace with its error recorded, `b` has a `completed`
trace, and the loop ran to completion; and concretely, in the `F`/`G`
scenario the full dispatch leaves `G`'s writes committed, two `failed`
traces for `F` with the error, a `completed` trace for `G`, `F`'s memory
unchanged, and the event returned successfully. -/
theorem C7_partial_failure_isolation :
    (∀ (reg : AgentRegistry) (toolReg : ToolRegistry) (db : DB) (ev : Event)
       (sa : Option String) (uid : Nat) (a b : AgentInstallation)
       (agF agG : AgentImpl) (msg : String) (rG : AgentResult) (u : UserRow)
       (sc : JMap) (cb : AgentContextRow),
       sa ≠ some a.agent_id → sa ≠ some b.agent_id →
       reg a.agent_id a.version = some agF →
       (∀ e c, agF.handle_event e c = .error msg) →
       reg b.agent_id b.version = some agG →
       (∀ e c, agG.handle_event e c = .ok rG) →
       rG.tool_executions = [] →
       rG.shared_context_updates ≠ [] →
       rG.agent_memory_updates ≠ [] →
       findUser db b.user_id = some u →
       u.shared_context = some sc →
       findAgentContext db b.id = some cb →
       a.id ≠ b.id →
       (findUser (List.foldl (fun acc inst =>
            dispatchToInstallation reg toolReg acc ev sa uid inst)
            (db, []) [a, b]).1 b.user_id =
          some { u with shared_context := some (dictUpdate sc rG.shared_context_updates) } ∧
        (∃ t ∈ (List.foldl (fun acc inst =>
            dispatchToInstallation reg toolReg acc ev sa uid inst)
            (db, []) [a, b]).1.traces,
          t.agent_id = a.agent_id ∧ t.status = .failed ∧ t.error = some msg) ∧
        (∃ t ∈ (List.foldl (fun acc inst =>
            dispatchToInstallation reg toolReg acc ev sa uid inst)
            (db, []) [a, b]).1.traces,
          t.agent_id = b.agent_id ∧ t.status = .completed) ∧
        findAgentContext (List.foldl (fun acc inst =>
            dispatchToInstallation reg toolReg acc ev sa uid inst)
            (db, []) [a, b]).1 b.id =
          some { cb with agent_memory := dictUpdate cb.agent_memory rG.agent_memory_updates } ∧
        findAgentContext (List.foldl (fun acc inst =>
            dispatchToInstallation reg toolReg acc ev sa uid inst)
            (db, []) [a, b]).1 a.id = findAgentContext db a.id)) ∧
    ((process_event regFG toolRegNone dbFG 1 "e" [] none 0).1.users =
      [{ id := 1, profile := none, shared_context := some [("k", .jstr "v")] }] ∧
     (process_event regFG toolRegNone dbFG 1 "e" [] none 0).1.traces =
      [{ id := 101, event_id := 100, agent_id := "F", installation_id := 1,
         status := .failed, error := some "agent exploded" },
       { id := 102, event_id := 100, agent_id := "F", installation_id := 1,
         status := .failed, error := some "agent exploded" },
       { id := 103, event_id := 100, agent_id := "G", installation_id := 2,
         status := .completed, error := none }] ∧
     (process_event regFG toolRegNone dbFG 1 "e" [] none 0).1.agent_contexts =
      [{ installation_id := 1, agent_memory := [("old", .jnum 1)] },
       { installation_id := 2, agent_memory := [("m", .jnum 2)] }] ∧
     (process_event regFG toolRegNone dbFG 1 "e" [] none 0).2 =
      .ok { id := 100, user_id := 1, event_type := "e", source_agent := none,
            payload := [] }) := by
  constructor
  · intro reg toolReg db ev sa uid a b agF agG msg rG u sc cb hsaA hsaB
      hregA hagF hregB hagG hrtG hUG hmemG hu husc hcb hne
    have hid_u : u.id = b.user_id := by simpa using List.find?_some hu
    have hid_cb : cb.installation_id = b.id := by
      simpa using List.find?_some hcb
    simp only [List.foldl_cons, List.foldl_nil]
    rw [dispatch_failure_eq reg toolReg db [] ev sa uid a agF msg hsaA hregA
      hagF]
    rw [dispatch_success_eq reg toolReg _ [] ev sa uid b agG rG u sc cb hsaB
      hregB hagG hrtG hUG (by exact hu) husc hmemG (by exact hcb)]
    refine ⟨?_, ?_, ?_, ?_, ?_⟩
    · show (db.users.map (fun x =>
          if x.id = b.user_id then
            { x with shared_context := some (dictUpdate sc rG.shared_context_updates) }
          else x)).find? (fun x => x.id = b.user_id) = _
      rw [find?_map_pres _ _
        (fun x => by by_cases hx : x.id = b.user_id <;> simp [hx]) db.users]
      rw [show db.users.find? (fun x => x.id = b.user_id) = some u from hu]
      simp [hid_u]
    · refine ⟨{ id := db.nextId + 1, event_id := ev.id,
                agent_id := a.agent_id, installation_id := a.id,
                status := .failed, error := some msg },
              List.mem_map.mpr
                ⟨{ id := db.nextId + 1, event_id := ev.id,
                   agent_id := a.agent_id, installation_id := a.id,
                   status := .failed, error := some msg },
                 by simp,
                 if_neg (by show ¬(db.nextId + 1 = db.nextId + 1 + 1); omega)⟩,
              rfl, rfl, rfl⟩
    · refine ⟨{ id := db.nextId + 1 + 1, event_id := ev.id,
                agent_id := b.agent_id, installation_id := b.id,
                status := .completed, error := none },
              List.mem_map.mpr
                ⟨{ id := db.nextId + 1 + 1, event_id := ev.id,
                   agent_id := b.agent_id, installation_id := b.id,
                   status := .running, error := none },
                 by simp, by simp⟩, rfl, rfl⟩
    · show (db.agent_contexts.map (fun c =>
          if c.installation_id = b.id then
            { c with agent_memory := dictUpdate cb.agent_memory rG.agent_memory_updates }
          else c)).find? (fun c => c.installation_id = b.id) = _
      rw [find?_map_pres _ _
        (fun c => by by_cases hc : c.installation_id = b.id <;> simp [hc])
        db.agent_contexts]
      rw [show db.agent_contexts.find? (fun c => c.installation_id = b.id) =
        some cb from hcb]
      simp [hid_cb]
    · show (db.agent_contexts.map (fun c =>
          if c.installation_id = b.id then
            { c with agent_memory := dictUpdate cb.agent_memory rG.agent_memory_updates }
          else c)).find? (fun c => c.installation_id = a.id) =
        db.agent_contexts.find? (fun c => c.installation_id = a.id)
      refine find?_map_invariant _ _
        (fun c => by by_cases hc : c.installation_id = b.id <;> simp [hc])
        (fun c hc => if_neg (fun hb => ?_)) db.agent_contexts
      exact hne (((by simpa using hc : c.installation_id = a.id)).symm.trans hb)
  · exact ⟨rfl, rfl, rfl, rfl⟩

/-- C7 witness: the general part applied to the `F`/`G` scenario at the
dispatch-loop level. -/
theorem C7_witness :
    findUser (List.foldl (fun acc inst =>
        dispatchToInstallation regFG toolRegNone acc
          { id := 100, user_id := 1, event_type := "e", source_agent := none,
            payload := [] } none 1 inst)
        (dbFG, [])
        [{ id := 1, user_id := 1, agent_id := "F", version := "1",
           status := "active" },
         { id := 2, user_id := 1, agent_id := "G", version := "1",
           status := "active" }]).1 1 =
      some { userOne with
             shared_context := some (dictUpdate [] [("k", .jstr "v")]) } ∧
    (∃ t ∈ (List.foldl (fun acc inst =>
        dispatchToInstallation regFG toolRegNone acc
          { id := 100, user_id := 1, event_type := "e", source_agent := none,
            payload := [] } none 1 inst)
        (dbFG, [])
        [{ id := 1, user_id := 1, agent_id := "F", version := "1",
           status := "active" },
         { id := 2, user_id := 1, agent_id := "G", version := "1",
           status := "active" }]).1.traces,
      t.agent_id = "F" ∧ t.status = .failed ∧
        t.error = some "agent exploded") ∧
    (∃ t ∈ (List.foldl (fun acc inst =>
        dispatchToInstallation regFG toolRegNone acc
          { id := 100, user_id := 1, event_type := "e", source_agent := none,
            payload := [] } none 1 inst)
        (dbFG, [])
        [{ id := 1, user_id := 1, agent_id := "F", version := "1",
           status := "active" },
         { id := 2, user_id := 1, agent_id := "G", version := "1",
           status := "active" }]).1.traces,
      t.agent_id = "G" ∧ t.status = .completed) ∧
    findAgentContext (List.foldl (fun acc inst =>
        dispatchToInstallation regFG toolRegNone acc
          { id := 100, user_id := 1, event_type := "e", source_agent := none,
            payload := [] } none 1 inst)
        (dbFG, [])
        [{ id := 1, user_id := 1, agent_id := "F", version := "1",
           status := "active" },
         { id := 2, user_id := 1, agent_id := "G", version := "1",
           status := "active" }]).1 2 =
      some { installation_id := 2,
             agent_memory := dictUpdate [] [("m", .jnum 2)] } ∧
    findAgentContext (List.foldl (fun acc inst =>
        dispatchToInstallation regFG toolRegNone acc
          { id := 100, user_id := 1, event_type := "e", source_agent := none,
            payload := [] } none 1 inst)
        (dbFG, [])
        [{ id := 1, user_id := 1, agent_id := "F", version := "1",
           status := "active" },
         { id := 2, user_id := 1, agent_id := "G", version := "1",
           status := "active" }]).1 1 = findAgentContext dbFG 1 :=
  C7_partial_failure_isolation.1 regFG toolRegNone dbFG
    { id := 100, user_id := 1, event_type := "e", source_agent := none,
      payload := [] } none 1
    { id := 1, user_id := 1, agent_id := "F", version := "1",
      status := "active" }
    { id := 2, user_id := 1, agent_id := "G", version := "1",
      status := "active" }
    failAgent writerAgent "agent exploded"
    { shared_context_updates := [("k", .jstr "v")],
      agent_memory_updates := [("m", .jnum 2)], events := [],
      tool_executions := [], status := "completed", error := none }
    userOne [] { installation_id := 2, agent_memory := [] }
    (by simp) (by simp) rfl (fun _ _ => rfl) rfl (fun _ _ => rfl) rfl
    (by simp) (by simp) rfl rfl rfl (by decide)

end Orbit
